import Mathlib

/-!
# Verification of the podcast-pulse transcript pipeline (`backend/downloader.py`)

Shallow embedding of the transcript-resolution pipeline of the repository:
the reference parser `extract_video_id`, the caption-join helper `_join`,
the deterministic summary stage `summarize_text_to_json`, the local
audio-download strategy `_download_audio_to_tmp`, the speech-to-text wrapper
`_transcribe_with_aai`, and the pipeline entry `download_audio_from_youtube`.

External collaborators (captions service, media-download tool, speech-to-text
service, the filesystem) are modelled by an explicit environment record whose
fields give the outcome each collaborator call would produce during the run;
the embedded functions consume those outcomes exactly where the source calls
the collaborator.  Python exceptions are modelled with `Except`; an exception
that the source lets escape to the caller is a distinguished result
constructor.
-/

namespace PodcastPulse

/-! ## Python string primitives

The source manipulates Python `str` values with `strip`, `split`, `lower`,
`in` (substring), `endswith`, `replace` and slicing.  These are modelled on
`List Char` / `String` below with Python's semantics.
-/

/-- Characters removed by Python `str.strip()` (ASCII whitespace). -/
def pySpace (c : Char) : Bool :=
  c = ' ' || c = '\t' || c = '\n' || c = '\r' || c = '\x0b' || c = '\x0c'

/-- Python `str.strip()` on a character list: drop whitespace from both ends. -/
def pyStripL (l : List Char) : List Char :=
  ((l.dropWhile pySpace).reverse.dropWhile pySpace).reverse

/-- Python `str.strip()`. -/
def pyStrip (s : String) : String := .mk (pyStripL s.data)

/-- Python `str.strip("/")` on a character list. -/
def stripSlashL (l : List Char) : List Char :=
  ((l.dropWhile (· = '/')).reverse.dropWhile (· = '/')).reverse

/-- Python `str.split(sep)` for a one-character separator: keeps empty
pieces, and splitting the empty string yields `[""]`. -/
def pySplit (sep : Char) : List Char → List (List Char)
  | [] => [[]]
  | c :: rest =>
    let r := pySplit sep rest
    if c = sep then [] :: r
    else
      match r with
      | h :: t => (c :: h) :: t
      | [] => [[c]]

/-- `pySplit` never returns the empty list (so head/last are well defined). -/
theorem pySplit_ne_nil (sep : Char) (l : List Char) : pySplit sep l ≠ [] := by
  induction l with
  | nil => simp [pySplit]
  | cons c rest ih =>
    simp only [pySplit]
    split
    · simp
    · match h : pySplit sep rest with
      | [] => exact absurd h ih
      | x :: xs => simp

/-- Python `str.split("/")` on strings. -/
def pySplitStr (sep : Char) (s : String) : List String :=
  (pySplit sep s.data).map String.mk

/-- Python `str.lower()` (the source only lowercases ASCII hostnames and path
segments, where `Char.toLower` agrees with Python). -/
def strLower (s : String) : String := .mk (s.data.map Char.toLower)

/-- Substring search on character lists: does `pat` occur contiguously? -/
def containsSubL (pat : List Char) : List Char → Bool
  | [] => pat.isPrefixOf []
  | c :: rest => pat.isPrefixOf (c :: rest) || containsSubL pat rest

/-- Python `pat in s` (substring containment). -/
def containsSub (pat s : String) : Bool := containsSubL pat.data s.data

/-- Python `s.endswith(pat)`. -/
def endsWithL (pat s : String) : Bool := pat.data.isSuffixOf s.data

/-- Split a character list at the first occurrence of `sep`; `none` when
`sep` does not occur. -/
def splitFirst (sep : Char) : List Char → Option (List Char × List Char)
  | [] => none
  | c :: rest =>
    if c = sep then some ([], rest)
    else (splitFirst sep rest).map (fun p => (c :: p.1, p.2))

/-! ## `urllib.parse` model

`extract_video_id` relies on `urlparse` and `parse_qs`.  `urlsplit` is
modelled after CPython: an optional `scheme:` prefix (first character a
letter, all characters scheme characters) is removed, a `//netloc` component
runs until the first `/`, `?` or `#`, the fragment is split at the first
`#`, and the query at the first `?`.  `params` handling (`;` in the last
path segment, done by `urlparse` on top of `urlsplit`) never fires for the
inputs of interest and is not modelled.
-/

/-- Characters allowed in a URL scheme. -/
def schemeChar (c : Char) : Bool :=
  c.isAlpha || c.isDigit || c = '+' || c = '-' || c = '.'

/-- The components of a parsed URL that `extract_video_id` consumes. -/
structure Url where
  netloc : String
  path : String
  query : String
  deriving DecidableEq, Repr

/-- CPython `urlsplit`, restricted to the `netloc`/`path`/`query` fields. -/
def urlsplit (s : String) : Url :=
  let l0 := s.data
  -- scheme removal
  let l1 :=
    match splitFirst ':' l0 with
    | some (pre, rest) =>
      if pre ≠ [] ∧ (pre.headD 'a').isAlpha ∧ pre.all schemeChar then rest else l0
    | none => l0
  -- netloc
  let netloc :=
    if l1.take 2 = ['/', '/'] then
      (l1.drop 2).takeWhile (fun c => ¬ (c = '/' ∨ c = '?' ∨ c = '#'))
    else []
  let l2 :=
    if l1.take 2 = ['/', '/'] then (l1.drop 2).drop netloc.length else l1
  -- fragment
  let l3 :=
    match splitFirst '#' l2 with
    | some (a, _) => a
    | none => l2
  -- query
  match splitFirst '?' l3 with
  | some (a, b) => ⟨.mk netloc, .mk a, .mk b⟩
  | none => ⟨.mk netloc, .mk l3, ""⟩

/-- ASCII hexadecimal digit test. -/
def isHexDigitC (c : Char) : Bool :=
  c.isDigit || ('a' ≤ c && c ≤ 'f') || ('A' ≤ c && c ≤ 'F')

/-- Hex digit value (for percent-decoding). -/
def hexVal (c : Char) : Nat :=
  if c.isDigit then c.toNat - '0'.toNat
  else if 'a' ≤ c ∧ c ≤ 'f' then c.toNat - 'a'.toNat + 10
  else if 'A' ≤ c ∧ c ≤ 'F' then c.toNat - 'A'.toNat + 10
  else 0

/-- Decode one chunk following a `%`: a leading valid `%XX` escape becomes
the character with that code, anything else keeps the `%` literally. -/
def pctChunk (chunk : List Char) : List Char :=
  match chunk with
  | a :: b :: r =>
    if isHexDigitC a ∧ isHexDigitC b then
      Char.ofNat (hexVal a * 16 + hexVal b) :: r
    else '%' :: chunk
  | _ => '%' :: chunk

/-- Python `urllib.parse.unquote_plus` restricted to single-byte escapes:
`+` becomes a space, the string is split on `%`, and each later chunk is
decoded with `pctChunk` (CPython's algorithm).  CPython additionally
UTF-8-decodes multi-byte escape runs; the pipeline never depends on that. -/
def unquotePlus (l : List Char) : List Char :=
  match pySplit '%' (l.map (fun c => if c = '+' then ' ' else c)) with
  | [] => []
  | first :: chunks => first ++ (chunks.map pctChunk).flatten

/-- CPython `parse_qsl` with default arguments: split the query on `&`,
drop empty chunks, drop chunks without `=`, drop pairs whose value is empty
(`keep_blank_values=False`), and percent-decode names and values. -/
def parseQsl (q : String) : List (String × String) :=
  (pySplit '&' q.data).filterMap (fun nv =>
    if nv = [] then none
    else
      match splitFirst '=' nv with
      | none => none
      | some (n, v) =>
        if v = [] then none
        else some (.mk (unquotePlus n), .mk (unquotePlus v)))

/-! ## Reference parser (`extract_video_id`) -/

/-- A character of the identifier class `[A-Za-z0-9_-]`. -/
def ytIdChar (c : Char) : Bool :=
  c.isAlpha || c.isDigit || c = '_' || c = '-'

/-- Python `re.match(r"^[A-Za-z0-9_-]{6,}$", s)` viewed as a Boolean: at
least six identifier characters spanning the whole string, where — per
Python's `$` semantics — a single final newline may follow the match. -/
def ytIdMatch (s : String) : Bool :=
  (decide (6 ≤ s.data.length) && s.data.all ytIdChar) ||
  (decide (7 ≤ s.data.length) && (s.data.getLast? == some '\n')
    && s.data.dropLast.all ytIdChar)

/-- The non-empty path segments `[p for p in u.path.split("/") if p]`. -/
def pathSegments (path : String) : List String :=
  (pySplitStr '/' path).filter (· ≠ "")

/-- The final rule of `extract_video_id` (lines 37–40): the last segment of
the slash-stripped path, accepted only when it matches `_YT_ID_RE`. -/
def fallbackId (path : String) : String :=
  let last : String := .mk ((pySplit '/' (stripSlashL path.data)).getLastD [])
  if ytIdMatch last then last else ""

/-- `backend/downloader.py`, `extract_video_id` (lines 21–40): short-link
host → first path segment; canonical host with a leading `shorts` segment →
the following segment; canonical host → the `v` query parameter; otherwise
the last path segment when it matches the identifier pattern, else `""`. -/
def extract_video_id (url : String) : String :=
  if url = "" then ""
  else
    let u := urlsplit (pyStrip url)
    let host := strLower u.netloc
    if endsWithL "youtu.be" host then
      .mk ((pySplit '/' (stripSlashL u.path.data)).headD [])
    else
      let shortsHit :=
        if containsSub "youtube.com" host && containsSub "/shorts/" u.path then
          let parts := pathSegments u.path
          if 2 ≤ parts.length ∧ strLower (parts.headD "") = "shorts" then
            some (parts.getD 1 "")
          else none
        else none
      match shortsHit with
      | some seg => seg
      | none =>
        let vHit :=
          if containsSub "youtube.com" host then
            (parseQsl u.query).find? (fun p => p.1 = "v") |>.map Prod.snd
          else none
        match vHit with
        | some v => v
        | none => fallbackId u.path

example : extract_video_id "https://youtu.be/AbCdEfGhIjK?si=xyz" = "AbCdEfGhIjK" := by decide
example : extract_video_id "https://www.youtube.com/watch?v=dQw4w9WgXcQ" = "dQw4w9WgXcQ" := by decide
example : extract_video_id "https://www.youtube.com/shorts/dQw4w9WgXcQ" = "dQw4w9WgXcQ" := by decide
example : extract_video_id "" = "" := by decide
example : extract_video_id "https://example.com/videos/abc_def-123" = "abc_def-123" := by decide
example : extract_video_id "https://example.com/videos/ab" = "" := by decide

/-! ## Captions join (`_join`) and summary stage (`summarize_text_to_json`)

A caption segment is represented by the value of its `text` field (a segment
whose dict lacks the field behaves as the empty string, exactly as
`i.get("text", "")` does).
-/

/-- `backend/downloader.py`, `_join` (lines 42–43):
`" ".join([i.get("text", "").strip() for i in items if i.get("text")])` —
keep the segments whose raw text is truthy (non-empty), strip each, and join
the stripped pieces with single spaces. -/
def _join (items : List String) : String :=
  " ".intercalate ((items.filter (fun t => t ≠ "")).map pyStrip)

/-- The join the specification describes: the trimmed, non-empty per-segment
text fields joined with single spaces (segments that are empty *after*
trimming contribute nothing).  Stated from the spec's words, for comparison
with `_join`. -/
def specJoin (items : List String) : String :=
  " ".intercalate (((items.map pyStrip).filter (fun t => t ≠ "")))

/-- JSON values, as needed for the summary artifact and the seed files. -/
inductive Json where
  | str (s : String)
  | arr (xs : List Json)
  | obj (kvs : List (String × Json))

/-- Top-level keys of a JSON object (in order); `[]` for non-objects. -/
def objKeys : Json → List String
  | .obj kvs => kvs.map Prod.fst
  | _ => []

/-- Look up a key in a JSON object. -/
def getKey (j : Json) (k : String) : Option Json :=
  match j with
  | .obj kvs => (kvs.find? (fun p => p.1 = k)).map Prod.snd
  | _ => none

/-- Python `transcript_text.replace("\n", " ")[:1200]`: newlines to spaces,
then the first 1200 characters. -/
def pySnippet (s : String) : String :=
  .mk ((s.data.map (fun c => if c = '\n' then ' ' else c)).take 1200)

/-- `backend/downloader.py`, `summarize_text_to_json` (lines 45–54): a fixed
artifact with one topic holding the bounded excerpt of the input. -/
def summarize_text_to_json (transcript_text : String) : Json :=
  .obj [("title", .str "Podcast Pulse — Auto Summary"),
        ("topics", .arr [.obj [("name", .str "Key Ideas"),
                               ("details", .str (pySnippet transcript_text))]]),
        ("quotes", .arr []),
        ("advice", .arr []),
        ("resources", .arr []),
        ("questions", .arr [])]

/-- The detail text of the single topic of a summary artifact. -/
def topicDetails (j : Json) : Option String :=
  match getKey j "topics" with
  | some (.arr [.obj kvs]) =>
    match (kvs.find? (fun p => p.1 = "details")).map Prod.snd with
    | some (.str s) => some s
    | _ => none
  | _ => none

example : _join ["a", " ", "b"] = "a  b" := by decide
example : specJoin ["a", " ", "b"] = "a b" := by decide
example : objKeys (summarize_text_to_json "") =
    ["title", "topics", "quotes", "advice", "resources", "questions"] := by decide
example : topicDetails (summarize_text_to_json "x\ny") = some "x y" := by decide

/-! ## Python exceptions -/

/-- The exception classes the pipeline distinguishes.  `noTranscriptFound`
and `transcriptsDisabled` are the two classes named by the inner caption
handler; every other caption-library error behaves like
`couldNotRetrieve`; `otherExc` carries `str(e)` of any other exception. -/
inductive PyExc where
  | noTranscriptFound
  | transcriptsDisabled
  | couldNotRetrieve
  | otherExc (msg : String)
  deriving DecidableEq, Repr

/-- `str(e)` as interpolated into `f"Audio fallback failed: {e}"`. -/
def excMsg : PyExc → String
  | .noTranscriptFound => "NoTranscriptFound"
  | .transcriptsDisabled => "TranscriptsDisabled"
  | .couldNotRetrieve => "CouldNotRetrieveTranscript"
  | .otherExc m => m

/-! ## Local audio strategy (`_download_audio_to_tmp`)

The media-download tool is an external collaborator: each `YoutubeDL`
invocation either raises (an error message) or yields extractor info (an
optional video id) and leaves some files in the scratch directory.  The
source iterates five fixed `player_client` profiles and then one final
permissive configuration; the environment supplies the outcome of each of
those invocations in order, together with the directory listing (file name
and size, relative to the scratch directory) observed after it.
-/

deriving instance DecidableEq for Except

/-- Outcome of one `YoutubeDL.extract_info(..., download=True)` call. -/
structure Trial where
  /-- `str(e)` of the raised exception, or the extracted `info.get("id")`. -/
  outcome : Except String (Option String)
  /-- Files in the scratch directory after the call: `(name, size in bytes)`. -/
  files : List (String × Nat)
  deriving DecidableEq, Repr

/-- Environment of one `_download_audio_to_tmp` attempt. -/
structure DlEnv where
  /-- The five `client_trials` invocations, in order. -/
  trials : List Trial
  /-- The final permissive invocation (`format: bestaudio/best`). -/
  final : Trial
  deriving DecidableEq, Repr

/-- The per-trial file check (lines 133–146): prefer `"{vid}.{ext}"` for the
common audio extensions when larger than 1024 bytes; otherwise the largest
file in the directory (Python's stable descending sort picks the earliest
among equals), if larger than 1024 bytes. -/
def trialFileHit (vid : String) (files : List (String × Nat)) : Option String :=
  match ["m4a", "mp3", "webm", "opus"].findSome? (fun ext =>
      let nm := vid ++ "." ++ ext
      if files.any (fun f => f.1 = nm && 1024 < f.2) then some nm else none) with
  | some nm => some nm
  | none =>
    match files with
    | [] => none
    | f0 :: rest =>
      let best := rest.foldl (fun b g => if b.2 < g.2 then g else b) f0
      if 1024 < best.2 then some best.1 else none

/-- The `for clients in client_trials` loop (lines 126–151): a raising trial
records `last_err` and continues; a non-raising trial returns its file hit
or continues with `last_err` unchanged.  Returns the hit or the final
`last_err`. -/
def dlLoop (url : String) (trials : List Trial) (lastErr : Option String) :
    Except (Option String) (String × String) :=
  match trials with
  | [] => .error lastErr
  | t :: rest =>
    match t.outcome with
    | .error e => dlLoop url rest (some e)
    | .ok id? =>
      let vid := id?.getD (extract_video_id url)
      match trialFileHit vid t.files with
      | some nm => .ok (nm, vid)
      | none => dlLoop url rest lastErr

/-- `backend/downloader.py`, `_download_audio_to_tmp` (lines 85–177).
Returns the Python `(local_audio_path, video_id)` / `(None, error_message)`
pair as an `Except`, plus whether `shutil.rmtree` removed the scratch
directory before returning.  The cookie file only alters the collaborator's
options, so it does not appear in the model's data flow. -/
def _download_audio_to_tmp (url : String) ( _cookies : Option String)
    (env : DlEnv) : Except String (String × String) × Bool :=
  match dlLoop url env.trials none with
  | .ok hit => (.ok hit, false)
  | .error lastErr =>
    match env.final.outcome with
    | .error ef => (.error ((lastErr.getD "") ++ " | final-permissive: " ++ ef), true)
    | .ok id? =>
      let vid := id?.getD (extract_video_id url)
      match env.final.files.find? (fun f => 1024 < f.2) with
      | some f => (.ok (f.1, vid), false)
      | none => (.error (lastErr.getD "Could not download audio (unknown reason)"), true)

/-! ## Speech-to-text wrapper (`_transcribe_with_aai`) and the pipeline -/

/-- Environment of one `download_audio_from_youtube` call: the outcome every
external collaborator (seed file, captions service, filesystem writes,
cookie-file creation, media downloader, speech-to-text service) would
produce during the run. -/
structure Env where
  /-- `(backend/seed/<id>.json).exists()`. -/
  seedExists : Bool
  /-- Outcome of `open` + `json.load` on the seed file (when it exists). -/
  seedRead : Except PyExc Json
  /-- `YouTubeTranscriptApi.get_transcript(id, languages=[...])`: the
  segment text fields, or the exception raised. -/
  getTranscript : Except PyExc (List String)
  /-- `YouTubeTranscriptApi.list_transcripts(id)` (only whether it raises). -/
  listTranscripts : Except PyExc Unit
  /-- `transcripts.find_transcript([...]).fetch()`. -/
  findFetch : Except PyExc (List String)
  /-- `next(iter(transcripts)).translate("en").fetch()`. -/
  translateFetch : Except PyExc (List String)
  /-- Outcome of `_write_summary` (mkdir + open + json.dump). -/
  writeRes : Except PyExc Unit
  /-- Outcome of `_cookies_file_from_env()`. -/
  cookiesRes : Except PyExc (Option String)
  /-- The media-download collaborator's behaviour. -/
  dlEnv : DlEnv
  /-- `os.getenv("ASSEMBLYAI_API_KEY", "")`. -/
  aaiKey : String
  /-- `transcript.status` reported by the speech-to-text service. -/
  aaiStatus : String
  /-- `transcript.text` reported by the speech-to-text service. -/
  aaiText : String
  /-- `transcript.error` reported by the speech-to-text service. -/
  aaiError : String

/-- `backend/downloader.py`, `_transcribe_with_aai` (lines 179–188): raises
without a key, raises unless the job completed with non-empty text, else
returns the text. -/
def _transcribe_with_aai ( _localPath : String) (env : Env) : Except PyExc String :=
  if env.aaiKey = "" then .error (.otherExc "ASSEMBLYAI_API_KEY not set")
  else if env.aaiStatus ≠ "completed" ∨ env.aaiText = "" then
    .error (.otherExc ("AssemblyAI failed: " ++ env.aaiError))
  else .ok env.aaiText

/-- The file name `_write_summary` writes under `backend/downloads/`. -/
def summaryFileName (video_id : String) : String := video_id ++ "_summary.txt"

/-- Result of a pipeline run: the success dict, the error dict, or an
exception the source lets escape to the caller. -/
inductive PipeResult where
  | ok (message : String) (video_id : String)
  | err (message : String)
  | exc (e : PyExc)
  deriving Repr

/-- A pipeline run's result together with which collaborators were invoked
and the files `_write_summary` successfully persisted (name and contents). -/
structure PipeOut where
  result : PipeResult
  /-- `YouTubeTranscriptApi.get_transcript` was called. -/
  captionsInvoked : Bool
  /-- `_download_audio_to_tmp` was called. -/
  dlInvoked : Bool
  /-- `_transcribe_with_aai` was called. -/
  aaiInvoked : Bool
  /-- Completed `_write_summary` calls, in order. -/
  written : List (String × Json)

/-- The caption-fetch nest of stage 1 (lines 212–221): `get_transcript`,
falling back on `NoTranscriptFound`/`TranscriptsDisabled` to
`list_transcripts` then `find_transcript(...).fetch()` then
`translate("en").fetch()`; any other exception propagates to the stage-1
handlers. -/
def stage1Items (env : Env) : Except PyExc (List String) :=
  match env.getTranscript with
  | .ok items => .ok items
  | .error e =>
    if e = .noTranscriptFound ∨ e = .transcriptsDisabled then
      match env.listTranscripts with
      | .error e' => .error e'
      | .ok _ =>
        match env.findFetch with
        | .ok items => .ok items
        | .error _ => env.translateFetch
    else .error e

/-- The transcript text stage 1 would return: the joined caption text when
the caption nest succeeds and the join is non-empty after stripping. -/
def stage1Text (env : Env) : Option String :=
  match stage1Items env with
  | .error _ => none
  | .ok items => if pyStrip (_join items) = "" then none else some (_join items)

/-- Stage 2 of the pipeline (lines 232–243): cookie file, audio download,
speech-to-text, summary write, all inside one `except Exception` handler.
Only reached after stage 1 ran, so `captionsInvoked` is `true`. -/
def stage2 (url video_id : String) (env : Env) : PipeOut :=
  match env.cookiesRes with
  | .error e => ⟨.err ("Audio fallback failed: " ++ excMsg e), true, false, false, []⟩
  | .ok cookies =>
    match _download_audio_to_tmp url cookies env.dlEnv with
    | (.error _, _) =>
      ⟨.err "Could not download audio from YouTube (blocked). Add cookies or try another link.",
       true, true, false, []⟩
    | (.ok (localPath, _), _) =>
      match _transcribe_with_aai localPath env with
      | .error e => ⟨.err ("Audio fallback failed: " ++ excMsg e), true, true, true, []⟩
      | .ok text =>
        let summary := summarize_text_to_json text
        match env.writeRes with
        | .error e => ⟨.err ("Audio fallback failed: " ++ excMsg e), true, true, true, []⟩
        | .ok _ =>
          ⟨.ok "Processed via AssemblyAI (file upload)" video_id, true, true, true,
           [(summaryFileName video_id, summary)]⟩

/-- `backend/downloader.py`, `download_audio_from_youtube` (lines 192–243):
parse the id; serve a demo seed file when present (its read and summary
write are *not* guarded by any handler); then stage 1 (captions, all
exceptions swallowed by `except ...: pass`); then stage 2. -/
def download_audio_from_youtube (url : String) (env : Env) : PipeOut :=
  let video_id := extract_video_id url
  if video_id = "" then
    ⟨.err "Invalid YouTube URL. Could not parse a video ID.", false, false, false, []⟩
  else if env.seedExists then
    match env.seedRead with
    | .error e => ⟨.exc e, false, false, false, []⟩
    | .ok data =>
      match env.writeRes with
      | .error e => ⟨.exc e, false, false, false, []⟩
      | .ok _ =>
        ⟨.ok "Processed via demo seed" video_id, false, false, false,
         [(summaryFileName video_id, data)]⟩
  else
    match stage1Items env with
    | .ok items =>
      let text := _join items
      if pyStrip text = "" then stage2 url video_id env
      else
        match env.writeRes with
        | .ok _ =>
          ⟨.ok "Processed via transcript" video_id, true, false, false,
           [(summaryFileName video_id, summarize_text_to_json text)]⟩
        | .error _ => stage2 url video_id env
    | .error _ => stage2 url video_id env

/-- "The audio fallback fails": stage 2 would not reach its success return.
Mirrors `stage2` branch by branch. -/
def stage2Fails (url : String) (env : Env) : Bool :=
  match env.cookiesRes with
  | .error _ => true
  | .ok cookies =>
    match _download_audio_to_tmp url cookies env.dlEnv with
    | (.error _, _) => true
    | (.ok (localPath, _), _) =>
      match _transcribe_with_aai localPath env with
      | .error _ => true
      | .ok _ =>
        match env.writeRes with
        | .error _ => true
        | .ok _ => false

/-! ## Concrete environments used by counterexamples and witnesses -/

/-- A `YoutubeDL` invocation that raises. -/
def failTrial : Trial := ⟨.error "HTTP Error 403: Forbidden", []⟩

/-- A download environment in which every invocation raises. -/
def dlFailEnv : DlEnv := ⟨[failTrial, failTrial, failTrial, failTrial, failTrial], failTrial⟩

/-- Baseline environment: no seed, captions disabled, all downloads blocked,
no speech-to-text key, summary writes succeed. -/
def baseEnv : Env :=
  { seedExists := false
    seedRead := .ok (.arr [])
    getTranscript := .error .transcriptsDisabled
    listTranscripts := .error .couldNotRetrieve
    findFetch := .error .couldNotRetrieve
    translateFetch := .error .couldNotRetrieve
    writeRes := .ok ()
    cookiesRes := .ok none
    dlEnv := dlFailEnv
    aaiKey := ""
    aaiStatus := ""
    aaiText := ""
    aaiError := "" }

/-! ## Helper lemmas -/

/-- Unfolding the identifier pattern: a match is at least six identifier
characters, optionally followed by one final newline. -/
theorem ytIdMatch_eq_true {s : String} (h : ytIdMatch s = true) :
    (6 ≤ s.length ∧ s.data.all ytIdChar = true) ∨
      (s.data.getLast? = some '\n' ∧ 7 ≤ s.length ∧
        s.data.dropLast.all ytIdChar = true) := by
  unfold ytIdMatch at h
  simp only [Bool.or_eq_true, Bool.and_eq_true, decide_eq_true_eq, beq_iff_eq] at h
  rcases h with ⟨ha, hb⟩ | ⟨⟨ha, hb⟩, hc⟩
  · exact Or.inl ⟨ha, hb⟩
  · exact Or.inr ⟨hb, ha, hc⟩

/-- The fallback rule only returns strings that match the pattern. -/
theorem fallbackId_valid {path : String} (h : fallbackId path ≠ "") :
    ytIdMatch (fallbackId path) = true := by
  by_cases hm :
      ytIdMatch (String.mk ((pySplit '/' (stripSlashL path.data)).getLastD [])) = true
  · have heq : fallbackId path =
        String.mk ((pySplit '/' (stripSlashL path.data)).getLastD []) := by
      show (if ytIdMatch (String.mk ((pySplit '/' (stripSlashL path.data)).getLastD []))
              = true then
          String.mk ((pySplit '/' (stripSlashL path.data)).getLastD []) else "") = _
      exact if_pos hm
    rw [heq]
    exact hm
  · have heq : fallbackId path = "" := by
      show (if ytIdMatch (String.mk ((pySplit '/' (stripSlashL path.data)).getLastD []))
              = true then
          String.mk ((pySplit '/' (stripSlashL path.data)).getLastD []) else "") = _
      exact if_neg hm
    exact absurd heq h

/-! ## Claim C1 (captions success short-circuits the audio fallback) -/

/-- Environment for the C1 counterexample: captions succeed with `"hello"`,
but persisting the summary raises. -/
def c1Env : Env :=
  { baseEnv with
    getTranscript := .ok ["hello"]
    writeRes := .error (.otherExc "No space left on device") }

/-- Claim C1 fails as stated: the captions stage yields the non-empty joined
text `"hello"`, yet because `_write_summary` raises — an exception the
stage-1 `except ...: pass` handlers swallow — the pipeline falls through to
stage 2, invokes the audio-download fallback, and returns its error rather
than a success for the caption text. -/
theorem C1_counterexample :
    c1Env.seedExists = false ∧
    stage1Text c1Env = some "hello" ∧
    (download_audio_from_youtube "https://youtu.be/abcdef0" c1Env).dlInvoked = true ∧
    (download_audio_from_youtube "https://youtu.be/abcdef0" c1Env).result =
      .err "Could not download audio from YouTube (blocked). Add cookies or try another link." :=
  ⟨rfl, rfl, rfl, rfl⟩

/-- Amended claim C1: when no seed file is present, the captions stage
yields non-empty joined transcript text *and the summary write succeeds*,
the pipeline returns the transcript success for that text immediately and
never invokes `_download_audio_to_tmp` or `_transcribe_with_aai`. -/
theorem C1_captions_success_no_fallback (url : String) (env : Env) (items : List String)
    (hid : extract_video_id url ≠ "")
    (hseed : env.seedExists = false)
    (hitems : stage1Items env = .ok items)
    (htext : pyStrip (_join items) ≠ "")
    (hwrite : env.writeRes = .ok ()) :
    download_audio_from_youtube url env =
      ⟨.ok "Processed via transcript" (extract_video_id url), true, false, false,
       [(summaryFileName (extract_video_id url), summarize_text_to_json (_join items))]⟩ := by
  unfold download_audio_from_youtube
  simp [hid, hseed, hitems, htext, hwrite]

/-- Environment for the C1 witness: captions succeed, everything else is
blocked. -/
def c1WitEnv : Env := { baseEnv with getTranscript := .ok ["hello", "world"] }

/-- Witness for the amended claim C1 at a concrete reference. -/
theorem C1_captions_success_no_fallback_witness :
    download_audio_from_youtube "https://youtu.be/abcdef0" c1WitEnv =
      ⟨.ok "Processed via transcript" "abcdef0", true, false, false,
       [("abcdef0_summary.txt", summarize_text_to_json "hello world")]⟩ :=
  (C1_captions_success_no_fallback "https://youtu.be/abcdef0" c1WitEnv ["hello", "world"]
      (by decide) rfl rfl (by decide) rfl).trans (by rfl)

/-! ## Claim C2 (all-fail diagnostics) -/

/-- When stage 2 fails, its result is the fixed blocked-download message or
`"Audio fallback failed: <exception>"` — never anything else. -/
theorem stage2_failure_message (url vid : String) (env : Env)
    (haudio : stage2Fails url env = true) :
    (stage2 url vid env).result =
        .err "Could not download audio from YouTube (blocked). Add cookies or try another link." ∨
      ∃ m, (stage2 url vid env).result = .err ("Audio fallback failed: " ++ m) := by
  unfold stage2
  unfold stage2Fails at haudio
  cases hc : env.cookiesRes with
  | error e => exact Or.inr ⟨excMsg e, by simp [hc]⟩
  | ok cookies =>
    cases hdl : _download_audio_to_tmp url cookies env.dlEnv with
    | mk res removed =>
      cases res with
      | error m => exact Or.inl (by simp [hc, hdl])
      | ok hit =>
        cases hit with
        | mk localPath vid2 =>
          cases ha : _transcribe_with_aai localPath env with
          | error e => exact Or.inr ⟨excMsg e, by simp [hc, hdl, ha]⟩
          | ok text =>
            cases hw : env.writeRes with
            | error e => exact Or.inr ⟨excMsg e, by simp [hc, hdl, ha, hw]⟩
            | ok u => simp [hc, hdl, ha, hw] at haudio

/-- Environment-level fact: under no seed, no caption text and a failing
audio fallback, the returned diagnostic is *only* the audio fallback's error
message — the captions skip reason recorded by stage 1 is discarded by the
`except ...: pass` handlers and never reaches the caller. -/
theorem C2_failure_mentions_only_audio (url : String) (env : Env)
    (hid : extract_video_id url ≠ "")
    (hseed : env.seedExists = false)
    (hcap : stage1Text env = none)
    (haudio : stage2Fails url env = true) :
    (download_audio_from_youtube url env).result =
        .err "Could not download audio from YouTube (blocked). Add cookies or try another link." ∨
      ∃ m, (download_audio_from_youtube url env).result =
        .err ("Audio fallback failed: " ++ m) := by
  have hmain : download_audio_from_youtube url env = stage2 url (extract_video_id url) env := by
    unfold download_audio_from_youtube
    unfold stage1Text at hcap
    cases h : stage1Items env with
    | error e => simp [hid, hseed, h]
    | ok items =>
      rw [h] at hcap
      by_cases ht : pyStrip (_join items) = ""
      · simp [hid, hseed, h, ht]
      · simp [ht] at hcap
  rw [hmain]
  exact stage2_failure_message url (extract_video_id url) env haudio

/-- Witness for the amended claim C2 in the all-fail baseline environment. -/
theorem C2_failure_mentions_only_audio_witness :
    stage1Text baseEnv = none ∧
    stage2Fails "https://youtu.be/abcdef0" baseEnv = true ∧
    ((download_audio_from_youtube "https://youtu.be/abcdef0" baseEnv).result =
        .err "Could not download audio from YouTube (blocked). Add cookies or try another link." ∨
      ∃ m, (download_audio_from_youtube "https://youtu.be/abcdef0" baseEnv).result =
        .err ("Audio fallback failed: " ++ m)) :=
  ⟨rfl, rfl, C2_failure_mentions_only_audio "https://youtu.be/abcdef0" baseEnv
    (by decide) rfl rfl rfl⟩

/-- Claim C2 fails as stated: with the captions strategy skipped because
transcripts are disabled and every download blocked, the failure message is
the fixed blocked-download text — it names neither the captions strategy nor
its skip reason, so the aggregate diagnostic the claim requires is absent. -/
theorem C2_counterexample :
    baseEnv.getTranscript = .error .transcriptsDisabled ∧
    stage1Text baseEnv = none ∧
    stage2Fails "https://youtu.be/abcdef0" baseEnv = true ∧
    (download_audio_from_youtube "https://youtu.be/abcdef0" baseEnv).result =
      .err "Could not download audio from YouTube (blocked). Add cookies or try another link." ∧
    containsSub "transcript"
      "Could not download audio from YouTube (blocked). Add cookies or try another link."
      = false ∧
    containsSub "caption"
      "Could not download audio from YouTube (blocked). Add cookies or try another link."
      = false ∧
    containsSub "disabled"
      "Could not download audio from YouTube (blocked). Add cookies or try another link."
      = false :=
  ⟨rfl, rfl, rfl, rfl, by decide, by decide, by decide⟩

/-! ## Claim C3 (code bug: the seed path propagates exceptions) -/

/-- Environment for the failing input of claim C3: the seed file for the
extracted id exists but reading it raises (e.g. malformed JSON). -/
def c3Env : Env :=
  { baseEnv with
    seedExists := true
    seedRead := .error (.otherExc "Expecting value: line 1 column 1 (char 0)") }

/-- Claim C3 is violated by the code: when the seed file for the extracted
id exists but `open`/`json.load` raises, `download_audio_from_youtube` has
no handler around the seed block (lines 203–208) and the exception
propagates to the caller instead of a structured result dictionary. -/
theorem C3_seed_read_propagates :
    (download_audio_from_youtube "https://youtu.be/abcdef0" c3Env).result =
      .exc (.otherExc "Expecting value: line 1 column 1 (char 0)") := rfl

/-! ## Claim C4 (scratch-directory cleanup in `_download_audio_to_tmp`) -/

/-- Download environment for the C4 counterexample: the first client trial
downloads `vid123xy.m4a` (2048 bytes > 1024). -/
def c4Dl : DlEnv :=
  ⟨[⟨.ok (some "vid123xy"), [("vid123xy.m4a", 2048)]⟩,
    failTrial, failTrial, failTrial, failTrial], failTrial⟩

/-- Claim C4 fails as stated: on the *success* exit path (an audio file was
produced) `_download_audio_to_tmp` returns the path without removing the
scratch directory — the returned audio file lives inside it, and no
`shutil.rmtree` runs on lines 130–146. -/
theorem C4_counterexample :
    _download_audio_to_tmp "https://youtu.be/abcdef0" none c4Dl =
      (.ok ("vid123xy.m4a", "vid123xy"), false) := rfl

/-- Amended claim C4: the scratch directory is removed exactly on the
non-success exit paths — whenever the strategy returns no audio file (skip
or failure by exception) the directory is removed before returning, and on
success it is retained (the returned file resides in it). -/
theorem C4_cleanup_iff_failure (url : String) (cookies : Option String) (env : DlEnv) :
    (_download_audio_to_tmp url cookies env).2 = true ↔
      ∃ m, (_download_audio_to_tmp url cookies env).1 = .error m := by
  unfold _download_audio_to_tmp
  cases h : dlLoop url env.trials none with
  | ok hit => simp
  | error lastErr =>
    cases hf : env.final.outcome with
    | error ef => simp
    | ok id? =>
      cases hfind : env.final.files.find? (fun f => 1024 < f.2) with
      | some f => simp [hfind]
      | none => simp [hfind]

/-! ## Claim C5 (the `shorts` rule) -/

/-- Claim C5 fails as stated: for
`https://www.youtube.com/c/shorts/ab1` the host is the canonical domain and
the path contains a `shorts` segment (at position 1), whose following
segment is `"ab1"`; but the code only accepts `shorts` as the *first*
segment, falls through, and the fallback rejects `"ab1"` (shorter than 6),
so the result is `""`, not `"ab1"`. -/
theorem C5_counterexample :
    (urlsplit (pyStrip "https://www.youtube.com/c/shorts/ab1")).path = "/c/shorts/ab1" ∧
    pathSegments "/c/shorts/ab1" = ["c", "shorts", "ab1"] ∧
    extract_video_id "https://www.youtube.com/c/shorts/ab1" = "" := by
  refine ⟨rfl, rfl, rfl⟩

/-- Amended claim C5: the shorts rule fires only when `"/shorts/"` occurs in
the path, the *first* non-empty path segment lowercases to `"shorts"`, and a
second segment exists; then `extract_video_id` returns the second non-empty
path segment (the one immediately following `shorts`). -/
theorem C5_shorts_first_segment (url : String)
    (hurl : url ≠ "")
    (hbe : endsWithL "youtu.be" (strLower (urlsplit (pyStrip url)).netloc) = false)
    (hyt : containsSub "youtube.com" (strLower (urlsplit (pyStrip url)).netloc) = true)
    (hsh : containsSub "/shorts/" (urlsplit (pyStrip url)).path = true)
    (hlen : 2 ≤ (pathSegments (urlsplit (pyStrip url)).path).length)
    (hfirst : strLower ((pathSegments (urlsplit (pyStrip url)).path).headD "") = "shorts") :
    extract_video_id url = (pathSegments (urlsplit (pyStrip url)).path).getD 1 "" := by
  have hfirst' :
      strLower ((pathSegments (urlsplit (pyStrip url)).path).head?.getD "") = "shorts" := by
    rw [← List.headD_eq_head?]; exact hfirst
  unfold extract_video_id
  simp [hurl, hbe, hyt, hsh, hlen, hfirst']

/-- Witness for the amended claim C5 at a concrete shorts URL. -/
theorem C5_shorts_first_segment_witness :
    extract_video_id "https://www.youtube.com/shorts/dQw4w9WgXcQ" = "dQw4w9WgXcQ" :=
  (C5_shorts_first_segment "https://www.youtube.com/shorts/dQw4w9WgXcQ"
      (by decide) (by decide) (by decide) (by decide) (by decide) (by decide)).trans
    (by decide)

/-! ## Claim C6 (identifier validity) -/

/-- Claim C6 fails as stated: the short-link branch returns the first path
segment without any validation, so `https://youtu.be/ab` yields the
non-empty identifier `"ab"` of length 2 < 6.  (The `shorts` and `v`-query
branches are equally unvalidated.) -/
theorem C6_counterexample :
    extract_video_id "https://youtu.be/ab" = "ab" ∧
    ¬ 6 ≤ (extract_video_id "https://youtu.be/ab").length := by
  refine ⟨rfl, by decide⟩

/-- Amended claim C6: only the final fallback branch validates.  For a
reference whose host neither ends with the short-link domain nor contains
the canonical domain, a non-empty result consists of at least six characters
from `[A-Za-z0-9_-]`, optionally followed by one final newline (an artifact
of Python's `$` matching before a trailing newline).  Identifiers from the
short-link, shorts and `v`-parameter branches are returned unvalidated. -/
theorem C6_fallback_validated (url : String)
    (hbe : endsWithL "youtu.be" (strLower (urlsplit (pyStrip url)).netloc) = false)
    (hyt : containsSub "youtube.com" (strLower (urlsplit (pyStrip url)).netloc) = false)
    (hne : extract_video_id url ≠ "") :
    (6 ≤ (extract_video_id url).length ∧ (extract_video_id url).data.all ytIdChar = true) ∨
      ((extract_video_id url).data.getLast? = some '\n' ∧ 7 ≤ (extract_video_id url).length ∧
        (extract_video_id url).data.dropLast.all ytIdChar = true) := by
  by_cases hu : url = ""
  · exact absurd (by simp [extract_video_id, hu]) hne
  · have hex : extract_video_id url = fallbackId (urlsplit (pyStrip url)).path := by
      unfold extract_video_id
      simp [hu, hbe, hyt]
    rw [hex] at hne ⊢
    exact ytIdMatch_eq_true (fallbackId_valid hne)

/-- Witness for the amended claim C6 at a concrete non-YouTube URL. -/
theorem C6_fallback_validated_witness :
    extract_video_id "https://example.com/videos/abc_def-123" ≠ "" ∧
    ((6 ≤ (extract_video_id "https://example.com/videos/abc_def-123").length ∧
        (extract_video_id "https://example.com/videos/abc_def-123").data.all ytIdChar = true) ∨
      ((extract_video_id "https://example.com/videos/abc_def-123").data.getLast? = some '\n' ∧
        7 ≤ (extract_video_id "https://example.com/videos/abc_def-123").length ∧
        (extract_video_id "https://example.com/videos/abc_def-123").data.dropLast.all ytIdChar
          = true)) :=
  ⟨by decide, C6_fallback_validated "https://example.com/videos/abc_def-123"
    (by decide) (by decide) (by decide)⟩

/-! ## Claim C7 (caption join) -/

/-- Claim C7 fails as stated: a whitespace-only segment (here `" "`) passes
the raw-truthiness filter, strips to the empty string, and the join
interposes it, separating `"a"` and `"b"` by two spaces — not the trimmed,
non-empty fields joined with single spaces. -/
theorem C7_counterexample :
    _join ["a", " ", "b"] = "a  b" ∧ specJoin ["a", " ", "b"] = "a b" ∧
    _join ["a", " ", "b"] ≠ specJoin ["a", " ", "b"] := by
  refine ⟨rfl, rfl, by decide⟩

/-- Amended claim C7: for caption segment lists in which no segment text is
non-empty but whitespace-only, `_join` equals the spec's join — the trimmed,
non-empty per-segment texts joined with single spaces. -/
theorem C7_join_no_blank_segments (items : List String)
    (h : ∀ t ∈ items, t ≠ "" → pyStrip t ≠ "") :
    _join items = specJoin items := by
  unfold _join specJoin
  congr 1
  induction items with
  | nil => rfl
  | cons t l ih =>
    simp only [List.map_cons, List.filter_cons]
    by_cases ht : t = ""
    · subst ht
      have hstrip : pyStrip "" = "" := rfl
      simp only [hstrip]
      simpa using ih (fun x hx h2 => h x (List.mem_cons_of_mem _ hx) h2)
    · have hs : pyStrip t ≠ "" := h t (List.mem_cons_self _ _) ht
      simp only [ht, hs, decide_not]
      simpa [ht, hs] using ih (fun x hx h2 => h x (List.mem_cons_of_mem _ hx) h2)

/-- Witness for the amended claim C7 on a list with an empty (but not
whitespace-only) segment. -/
theorem C7_join_no_blank_segments_witness :
    _join ["hello", "", "world"] = specJoin ["hello", "", "world"] :=
  C7_join_no_blank_segments ["hello", "", "world"] (by decide)

/-! ## Claim C8 (artifact shape) -/

/-- Claim C8 fails as stated: the artifact's sixth key is `"questions"`,
not `"key_questions"`. -/
theorem C8_counterexample :
    objKeys (summarize_text_to_json "") =
      ["title", "topics", "quotes", "advice", "resources", "questions"] ∧
    "key_questions" ∉ objKeys (summarize_text_to_json "") := by
  refine ⟨rfl, by decide⟩

/-- Amended claim C8: for every input string, the artifact's top-level keys
are exactly `title, topics, quotes, advice, resources, questions`, and the
topics list holds exactly one entry with a `name` and a `details` field. -/
theorem C8_artifact_shape (s : String) :
    objKeys (summarize_text_to_json s) =
      ["title", "topics", "quotes", "advice", "resources", "questions"] ∧
    getKey (summarize_text_to_json s) "topics" =
      some (.arr [.obj [("name", .str "Key Ideas"),
                        ("details", .str (pySnippet s))]]) :=
  ⟨rfl, rfl⟩

/-! ## Claim C9 (excerpt construction) -/

/-- Claim C9 holds: the single topic's excerpt is the input with newlines
replaced by spaces, truncated to 1200 characters; for longer inputs the
excerpt has length exactly 1200 and contains no newline. -/
theorem C9_excerpt (s : String) :
    topicDetails (summarize_text_to_json s) =
      some (.mk ((s.data.map (fun c => if c = '\n' then ' ' else c)).take 1200)) ∧
    (1200 < s.length →
      (pySnippet s).length = 1200 ∧ (pySnippet s).data.all (· ≠ '\n') = true) := by
  constructor
  · rfl
  · intro h
    have hlen : 1200 < s.data.length := h
    constructor
    · show ((s.data.map _).take 1200).length = 1200
      rw [List.length_take, List.length_map]
      omega
    · rw [List.all_eq_true]
      intro c hc
      obtain ⟨a, _, rfl⟩ := List.mem_map.mp (List.mem_of_mem_take hc)
      by_cases h' : a = '\n' <;> simp [h']

/-- Input exceeding the excerpt bound, with a newline. -/
def c9Str : String := .mk ('\n' :: List.replicate 1200 'a')

set_option maxRecDepth 16384 in
/-- Witness for claim C9 on an input of length 1201. -/
theorem C9_excerpt_witness :
    1200 < c9Str.length ∧
    ((pySnippet c9Str).length = 1200 ∧ (pySnippet c9Str).data.all (· ≠ '\n') = true) :=
  ⟨by decide, (C9_excerpt c9Str).2 (by decide)⟩

/-! ## Claim C10 (seed short-circuit) -/

/-- Environment for the C10 counterexample: the seed exists and parses, but
persisting the summary raises. -/
def c10BadEnv : Env :=
  { baseEnv with
    seedExists := true
    seedRead := .ok (.str "free-form seed payload")
    writeRes := .error (.otherExc "No space left on device") }

/-- Claim C10 fails as stated as a universal statement: when the seed is
present and readable but `_write_summary` raises, the unguarded seed block
propagates the exception — the function does not return a success outcome
built from the seed. -/
theorem C10_counterexample :
    c10BadEnv.seedExists = true ∧
    c10BadEnv.seedRead = .ok (.str "free-form seed payload") ∧
    (download_audio_from_youtube "https://youtu.be/abcdef0" c10BadEnv).result =
      .exc (.otherExc "No space left on device") := by
  refine ⟨rfl, rfl, rfl⟩

/-- Amended claim C10: when the seed file for the extracted id is present,
its contents parse, and the summary write succeeds, the pipeline returns the
demo-seed success outcome without invoking the captions service, the media
downloader or the speech-to-text service, and persists the parsed seed
contents verbatim — for an *arbitrary* JSON value `d`, with no validation
against the artifact shape. -/
theorem C10_seed_shortcircuit (url : String) (env : Env) (d : Json)
    (hid : extract_video_id url ≠ "")
    (hseed : env.seedExists = true)
    (hread : env.seedRead = .ok d)
    (hwrite : env.writeRes = .ok ()) :
    download_audio_from_youtube url env =
      ⟨.ok "Processed via demo seed" (extract_video_id url), false, false, false,
       [(summaryFileName (extract_video_id url), d)]⟩ := by
  unfold download_audio_from_youtube
  simp [hid, hseed, hread, hwrite]

/-- Environment for the C10 witness: a readable seed whose contents do not
have the artifact shape at all. -/
def c10Env : Env :=
  { baseEnv with
    seedExists := true
    seedRead := .ok (.str "free-form seed payload") }

/-- Witness for the amended claim C10: the non-artifact-shaped seed value is
persisted verbatim and returned as a success, with no collaborator calls. -/
theorem C10_seed_shortcircuit_witness :
    download_audio_from_youtube "https://youtu.be/abcdef0" c10Env =
      ⟨.ok "Processed via demo seed" "abcdef0", false, false, false,
       [("abcdef0_summary.txt", .str "free-form seed payload")]⟩ :=
  (C10_seed_shortcircuit "https://youtu.be/abcdef0" c10Env (.str "free-form seed payload")
      (by decide) rfl rfl rfl).trans (by rfl)

end PodcastPulse
